import Mathlib

/-!
Verification of the session/HTTP-fetch core of the viwx Kodi add-on
(`plugin.video.viwx/resources/lib/fetch.py` and the session logic of
`itv_account.py`).  Python functions are shallowly embedded as Lean
functions; exceptions become `Except`, the file system and network become
explicit inputs/outputs.
-/

/-- A JSON value, as produced by Python's `json` module / `resp.json()`.
Numbers are modelled as integers (no claim performs float arithmetic). -/
inductive JsonValue where
  | null
  | bool (b : Bool)
  | num (n : Int)
  | str (s : String)
  | arr (xs : List JsonValue)
  | obj (kvs : List (String × JsonValue))

/-- `charsStartWith hay sub`: the character list `hay` starts with `sub`. -/
def charsStartWith : List Char → List Char → Bool
  | _, [] => true
  | [], _ :: _ => false
  | a :: as, b :: bs => a == b && charsStartWith as bs

/-- `charsContain hay sub`: `sub` occurs as a contiguous run inside `hay`. -/
def charsContain : List Char → List Char → Bool
  | [], sub => sub.isEmpty
  | a :: t, sub => charsStartWith (a :: t) sub || charsContain t sub

/-- Python `sub in s` on strings: substring containment. -/
def strContains (s sub : String) : Bool :=
  charsContain s.data sub.data

/-- Python `d.get(k)` on a JSON object (association list, first key wins). -/
def jsonGet (kvs : List (String × JsonValue)) (k : String) : Option JsonValue :=
  (kvs.find? (fun p => p.1 == k)).map (fun p => p.2)

/-- Python `v == s` for a JSON value against a string literal: only a JSON
string with the same contents compares equal. -/
def JsonValue.eqString (v : JsonValue) (s : String) : Bool :=
  match v with
  | .str t => t == s
  | _ => false

/-- Python `needle in v`: substring test on a string, element test on a
list, key test on a dict; `TypeError` (modelled as `.error ()`) on
`None`/numbers/booleans, which are not containers. -/
def pyInStr (needle : String) (v : JsonValue) : Except Unit Bool :=
  match v with
  | .str s => .ok (strContains s needle)
  | .arr xs => .ok (xs.any (fun x => x.eqString needle))
  | .obj kvs => .ok (kvs.any (fun p => p.1 == needle))
  | .null => .error ()
  | .bool _ => .error ()
  | .num _ => .error ()

/-- The add-on's error taxonomy (`errors.py`): the classes raised by the
fetch layer.  `AuthenticationError` optionally carries the description it
was constructed with. -/
inductive ViwxError where
  | AuthenticationError (descr : Option JsonValue)
  | AccessRestrictedError
  | GeoRestrictedError
  | HttpError (code : Nat) (reason : String)
  | FetchError (descr : String)

/-- An exception escaping `web_request`: one of the add-on's own error
classes, or a plain Python error (`AttributeError` from calling `.get` on
a non-dict JSON body, `TypeError` from `in` on a non-container). -/
inductive PyExc where
  | api (e : ViwxError)
  | attributeError
  | typeError

/-- The parts of a `requests` response that `web_request` and the JSON
helpers inspect.  `jsonData = none` models a body on which `resp.json()`
raises (fails to parse). -/
structure HttpResponse where
  status_code : Nat
  reason : String
  jsonData : Option JsonValue

/-- Outcome of the underlying `requests` call: either a response came
back, or the transport failed (`requests.RequestException`). -/
inductive RequestOutcome where
  | response (resp : HttpResponse)
  | requestException (msg : String)

/-- Tail of the `except requests.HTTPError` handler in `web_request`
(fetch.py lines 218-222): `401` becomes a bare `AuthenticationError()`,
anything else `HttpError(status_code, reason)`. -/
def classify_tail (resp : HttpResponse) : PyExc :=
  if resp.status_code = 401 then .api (.AuthenticationError none)
  else .api (.HttpError resp.status_code resp.reason)

/-- The test `resp_data.get('error') in ('invalid_grant',
'invalid_request')` on a parsed JSON object. -/
def py_error_field_matches (kvs : List (String × JsonValue)) : Bool :=
  match jsonGet kvs "error" with
  | some v => v.eqString "invalid_grant" || v.eqString "invalid_request"
  | none => false

/-- `resp_data.get('Message', '')` on a parsed JSON object. -/
def py_message (kvs : List (String × JsonValue)) : JsonValue :=
  (jsonGet kvs "Message").getD (.str "")

/-- The `except requests.HTTPError` handler of `web_request` (fetch.py
lines 200-222).  For a 4xx, `resp.json()` is attempted; a parse failure
is swallowed (`pass`) and the handler falls through to `classify_tail`.
A body that parses to a non-dict makes `resp_data.get` raise
`AttributeError`; a `Message` field that is not a container makes the
`in` test raise `TypeError`.  Otherwise the body is matched against the
`error` field and the two `Message` substrings, in source order. -/
def classify_http_error (resp : HttpResponse) : PyExc :=
  if 400 ≤ resp.status_code ∧ resp.status_code < 500 then
    match resp.jsonData with
    | none => classify_tail resp
    | some (.obj kvs) =>
      if py_error_field_matches kvs then
        .api (.AuthenticationError (some ((jsonGet kvs "error_description").getD (.str "Login failed"))))
      else
        match pyInStr "User does not have entitlements" (py_message kvs) with
        | .error _ => .typeError
        | .ok true => .api .AccessRestrictedError
        | .ok false =>
          match pyInStr "Outside Of Allowed Geographic Region" (py_message kvs) with
          | .error _ => .typeError
          | .ok true => .api .GeoRestrictedError
          | .ok false => classify_tail resp
    | some _ => .attributeError
  else classify_tail resp

/-- `web_request` (fetch.py lines 185-227), projected on the error
classification.  `resp.raise_for_status()` raises `requests.HTTPError`
exactly for status codes in `[400, 600)`; the `except requests.HTTPError`
branch then classifies, and `except requests.RequestException` turns
transport failures into `FetchError(str(e))`. -/
def web_request (outcome : RequestOutcome) : Except PyExc HttpResponse :=
  match outcome with
  | .requestException msg => .error (.api (.FetchError msg))
  | .response resp =>
    if 400 ≤ resp.status_code ∧ resp.status_code < 600 then
      .error (classify_http_error resp)
    else .ok resp

/-- Claim-side reading of classification row 1: the JSON body parsed to an
object whose `error` field is the string `invalid_grant` or
`invalid_request`. -/
def spec_error_matches (resp : HttpResponse) : Bool :=
  match resp.jsonData with
  | some (.obj kvs) =>
    match jsonGet kvs "error" with
    | some (.str t) => t == "invalid_grant" || t == "invalid_request"
    | _ => false
  | _ => false

/-- Claim-side reading of the description carried by row 1's
`AuthenticationError`: the body's `error_description`, defaulting to
`Login failed` when absent. -/
def spec_error_description (resp : HttpResponse) : JsonValue :=
  match resp.jsonData with
  | some (.obj kvs) => (jsonGet kvs "error_description").getD (.str "Login failed")
  | _ => .str "Login failed"

/-- Claim-side reading of rows 2-3: the body's `Message` field contains
the given text (Python containment; a failing containment test counts as
not containing). -/
def spec_message_contains (resp : HttpResponse) (needle : String) : Bool :=
  match resp.jsonData with
  | some (.obj kvs) =>
    match pyInStr needle (py_message kvs) with
    | .ok b => b
    | .error _ => false
  | _ => false

/-- Written from the spec's classification table (section 4.5 / claim C2),
not from the source, to state the refinement between `web_request` and the
spec: the rows in the spec's order, most specific first. -/
def errorClassifierSpec (resp : HttpResponse) : ViwxError :=
  if (400 ≤ resp.status_code ∧ resp.status_code < 500) ∧ spec_error_matches resp then
    .AuthenticationError (some (spec_error_description resp))
  else if (400 ≤ resp.status_code ∧ resp.status_code < 500) ∧
      spec_message_contains resp "User does not have entitlements" then
    .AccessRestrictedError
  else if (400 ≤ resp.status_code ∧ resp.status_code < 500) ∧
      spec_message_contains resp "Outside Of Allowed Geographic Region" then
    .GeoRestrictedError
  else if resp.status_code = 401 then
    .AuthenticationError none
  else
    .HttpError resp.status_code resp.reason

/-- A response body on which the 4xx classification runs to completion
without a Python-level error: either the body fails to parse (the parse
error is swallowed), or it is a JSON object whose `Message` field, when
present, is a string, array or object (a container, so the `in` tests do
not raise `TypeError`). -/
def body_safe (resp : HttpResponse) : Bool :=
  match resp.jsonData with
  | none => true
  | some (.obj kvs) =>
    match jsonGet kvs "Message" with
    | some (.num _) => false
    | some (.bool _) => false
    | some .null => false
    | _ => true
  | some _ => false

/-- An HTTP cookie as stored by `http.cookiejar`: the attributes the
add-on's code reads (`name`, `value`, `domain`, `path`, `expires`,
`discard`). -/
structure Cookie where
  name : String
  value : String
  domain : String
  path : String
  expires : Option Nat
  discard : Bool
deriving Repr, DecidableEq

/-- `Cookie.is_expired(now)`: an expiry is set and has passed. -/
def Cookie.is_expired (c : Cookie) (now : Nat) : Bool :=
  match c.expires with
  | some e => e ≤ now
  | none => false

/-- `dict.get` on a string-keyed association list. -/
def alistGet {α : Type} (m : List (String × α)) (k : String) : Option α :=
  (m.find? (fun p => p.1 == k)).map (fun p => p.2)

/-- `dict[k] = v`: replace the entry in place, or append a new one. -/
def alistSet {α : Type} (m : List (String × α)) (k : String) (v : α) :
    List (String × α) :=
  if m.any (fun p => p.1 == k) then
    m.map (fun p => if p.1 == k then (k, v) else p)
  else m ++ [(k, v)]

/-- `del dict[k]`: `none` models the `KeyError` on a missing key. -/
def alistDel {α : Type} (m : List (String × α)) (k : String) :
    Option (List (String × α)) :=
  if m.any (fun p => p.1 == k) then some (m.filter (fun p => !(p.1 == k)))
  else none

/-- The `CookieJar._cookies` store: domain → path → name → cookie.
Deleting a name can leave empty inner dicts behind, which this nested
representation keeps, as the stdlib does. -/
abbrev CookieStore := List (String × List (String × List (String × Cookie)))

/-- All cookies held in a store (`CookieJar.__iter__`). -/
def storeCookies (st : CookieStore) : List Cookie :=
  st.flatMap (fun dp => dp.2.flatMap (fun pp => pp.2.map (fun np => np.2)))

/-- `CookieJar.set_cookie`:
`self._cookies.setdefault(domain, {}).setdefault(path, {})[name] = cookie`. -/
def storeSetCookie (st : CookieStore) (c : Cookie) : CookieStore :=
  let dm := (alistGet st c.domain).getD []
  let pm := (alistGet dm c.path).getD []
  alistSet st c.domain (alistSet dm c.path (alistSet pm c.name c))

/-- The two exceptions `CookieJar.clear` can raise: `KeyError` from a
failing `del`, `ValueError` from an invalid argument combination. -/
inductive PyClearExc where
  | keyError
  | valueError
deriving Repr, DecidableEq

/-- `http.cookiejar.CookieJar.clear(domain, path, name)`: with a name,
domain and path must also be given and the single cookie is deleted; with
a path, the domain must be given and the whole path dict is deleted; with
only a domain, the domain dict is deleted; with no arguments the store is
emptied.  Every `del` raises `KeyError` when the key is absent. -/
def storeClear (st : CookieStore) (domain path name : Option String) :
    Except PyClearExc CookieStore :=
  match name with
  | some n =>
    match domain, path with
    | some d, some p =>
      match alistGet st d with
      | none => .error .keyError
      | some dm =>
        match alistGet dm p with
        | none => .error .keyError
        | some pm =>
          match alistDel pm n with
          | none => .error .keyError
          | some pm2 => .ok (alistSet st d (alistSet dm p pm2))
    | _, _ => .error .valueError
  | none =>
    match path with
    | some p =>
      match domain with
      | some d =>
        match alistGet st d with
        | none => .error .keyError
        | some dm =>
          match alistDel dm p with
          | none => .error .keyError
          | some dm2 => .ok (alistSet st d dm2)
      | none => .error .valueError
    | none =>
      match domain with
      | some d =>
        match alistDel st d with
        | none => .error .keyError
        | some st2 => .ok st2
      | none => .ok []

/-- `PersistentCookieJar` (fetch.py lines 30-57): the inherited cookie
store, the target filename, and the dirty flag `_has_changed`. -/
structure PersistentCookieJar where
  filename : String
  _cookies : CookieStore
  _has_changed : Bool
deriving Repr, DecidableEq

/-- `PersistentCookieJar.__init__`: empty store, clean flag. -/
def PersistentCookieJar.mk_new (filename : String) : PersistentCookieJar :=
  { filename := filename, _cookies := [], _has_changed := false }

/-- `PersistentCookieJar.set_cookie` (fetch.py lines 45-48): store the
cookie via the base class, then `_has_changed |= cookie.name != 'hdntl'`. -/
def PersistentCookieJar.set_cookie (j : PersistentCookieJar) (c : Cookie) :
    PersistentCookieJar :=
  { j with _cookies := storeSetCookie j._cookies c,
           _has_changed := j._has_changed || !(c.name == "hdntl") }

/-- `PersistentCookieJar.clear` (fetch.py lines 50-57): delegate to the
base class; on success mark the jar changed; swallow `KeyError` leaving
the jar untouched; anything else (the base class's `ValueError`)
propagates. -/
def PersistentCookieJar.clear (j : PersistentCookieJar)
    (domain path name : Option String) :
    Except PyClearExc PersistentCookieJar :=
  match storeClear j._cookies domain path name with
  | .ok st => .ok { j with _cookies := st, _has_changed := true }
  | .error .keyError => .ok j
  | .error .valueError => .error .valueError

/-- Argument combinations `CookieJar.clear` accepts without raising
`ValueError`: a name only together with domain and path, a path only
together with a domain. -/
def valid_clear_args (domain path name : Option String) : Bool :=
  match name with
  | some _ => domain.isSome && path.isSome
  | none =>
    match path with
    | some _ => domain.isSome
    | none => true

/-- `CookieJar.clear_expired_cookies`, as called from `save`: every
expired cookie is removed via `self.clear(domain, path, name)`, which on
this class also sets `_has_changed`. -/
def PersistentCookieJar.clear_expired_cookies (j : PersistentCookieJar)
    (now : Nat) : PersistentCookieJar :=
  (storeCookies j._cookies).foldl
    (fun a c =>
      if c.is_expired now then
        match a.clear (some c.domain) (some c.path) (some c.name) with
        | .ok a2 => a2
        | .error _ => a
      else a)
    j

/-- `PersistentCookieJar.save` (fetch.py lines 36-43): a clean jar
returns without touching the file; a dirty jar prunes expired cookies,
resets the flag and writes the file.  The boolean reports whether the
file was written. -/
def PersistentCookieJar.save (j : PersistentCookieJar) (now : Nat) :
    PersistentCookieJar × Bool :=
  if j._has_changed then
    ({ j.clear_expired_cookies now with _has_changed := false }, true)
  else (j, false)

/-- One jar operation of the mutation vocabulary `save` is measured
against: a `set_cookie`, a `clear`, or a `save` at some time. -/
inductive JarOp where
  | setCookie (c : Cookie)
  | clearOp (domain path name : Option String)
  | saveOp (now : Nat)
deriving Repr

/-- Run one operation; the boolean reports a file write.  A `clear` whose
exception is caught by the caller leaves the jar as it was. -/
def jarStep (j : PersistentCookieJar) : JarOp → PersistentCookieJar × Bool
  | .setCookie c => (j.set_cookie c, false)
  | .clearOp d p n =>
    (match j.clear d p n with
     | .ok j2 => j2
     | .error _ => j, false)
  | .saveOp now => j.save now

/-- Run a list of operations, counting file writes. -/
def jarRun (j : PersistentCookieJar) : List JarOp → PersistentCookieJar × Nat
  | [] => (j, 0)
  | op :: rest =>
    ((jarRun (jarStep j op).1 rest).1,
     (if (jarStep j op).2 then 1 else 0) + (jarRun (jarStep j op).1 rest).2)

/-- Claim-side notion of change (spec section 4.1 / claim C5): a cookie
mutation counts as a change, except that setting the session-sticky
cookie `hdntl` does not; a `clear` counts exactly when the underlying
deletion succeeds; `save` itself is not a change. -/
def countsAsChange (j : PersistentCookieJar) : JarOp → Bool
  | .setCookie c => !(c.name == "hdntl")
  | .clearOp d p n =>
    match storeClear j._cookies d p n with
    | .ok _ => true
    | .error _ => false
  | .saveOp _ => false

/-- Claim-side bookkeeping, following the spec's words: walking the
trace, has a change occurred since the most recent `save` (`acc` carries
the answer so far; a `save` resets it)?  The jar state is threaded with
the program's own transition only to evaluate `countsAsChange`. -/
def changedSinceSave (j : PersistentCookieJar) (acc : Bool) :
    List JarOp → Bool
  | [] => acc
  | op :: rest =>
    changedSinceSave (jarStep j op).1
      (match op with
       | .saveOp _ => false
       | _ => acc || countsAsChange j op)
      rest

/-- `HttpSession.request` (fetch.py lines 87-101), projected on the
cookie jar: the wrapped `requests` call may add response cookies to the
jar, then `self.cookies.save()` runs; if the transport fails the
exception propagates before `save` is reached.  Returns the jar, whether
`save` was invoked, and whether the file was written. -/
def HttpSession.request (j : PersistentCookieJar) (outcome : RequestOutcome)
    (respCookies : List Cookie) (now : Nat) :
    PersistentCookieJar × Bool × Bool :=
  match outcome with
  | .requestException _ => (j, false, false)
  | .response _ =>
    let j1 := respCookies.foldl (fun a c => a.set_cookie c) j
    let s := j1.save now
    (s.1, true, s.2)

/-- Run a list of requests through `HttpSession.request`, counting file
writes. -/
def sessionRun (j : PersistentCookieJar) :
    List (RequestOutcome × List Cookie × Nat) → PersistentCookieJar × Nat
  | [] => (j, 0)
  | (o, rc, now) :: rest =>
    ((sessionRun (HttpSession.request j o rc now).1 rest).1,
     (if (HttpSession.request j o rc now).2.2 then 1 else 0) +
       (sessionRun (HttpSession.request j o rc now).1 rest).2)

/-- Where the consent negotiation of `set_default_cookies` (fetch.py
lines 125-182) can fail, all inside one broad `try`: the GET itself, the
`raise_for_status`, the `resp.json()`, or extracting/decoding the
`CassieConsent` payload.  On success it yields the consent name/value
pairs. -/
inductive ConsentOutcome where
  | getFails (msg : String)
  | badStatus (status : Nat)
  | notJson
  | badConsentPayload
  | consent (pairs : List (String × String))

/-- The `std_cookie_args` of `set_default_cookies`: domain `.itv.com`,
ten-year expiry, not discarded; `RequestsCookieJar.set` defaults the path
to `/`. -/
def std_cookie (now : Nat) (name value : String) : Cookie :=
  { name := name, value := value, domain := ".itv.com", path := "/",
    expires := some (now + 3650 * 86400), discard := false }

/-- `set_default_cookies` (fetch.py lines 125-182).  The docstring notes
the response's own third-party cookies are rejected by `requests`, so the
jar is only mutated by the explicit `jar.set` calls, which all come after
the last fallible step.  The broad `except:` swallows every failure and
returns the `cookiejar` argument unchanged (possibly `None`). -/
def set_default_cookies (outcome : ConsentOutcome) (uuid : String) (now : Nat)
    (cookiejar : Option PersistentCookieJar) : Option PersistentCookieJar :=
  match outcome with
  | .consent pairs =>
    let jar0 := cookiejar.getD (PersistentCookieJar.mk_new "")
    let jar1 := pairs.foldl (fun a p => a.set_cookie (std_cookie now p.1 p.2)) jar0
    let jar2 := jar1.set_cookie (std_cookie now "Itv.Cid" uuid)
    let jar3 := jar2.set_cookie (std_cookie now "Itv.Region" "ITV|null")
    let jar4 := jar3.set_cookie (std_cookie now "Itv.ParentalControls"
      "\x7b\"active\":false,\"pin\":null,\"question\":null,\"answer\":null\x7d")
    some jar4
  | _ => cookiejar

/-- Stand-in for `Script.localize(30920)`: the localized "parse failed"
message; its exact text lives in the add-on's language resources and is
irrelevant to the claims. -/
def script_localize (msgId : Nat) : String :=
  "localized message " ++ toString msgId

/-- `post_json` (fetch.py lines 230-239): POST, then `resp.json()`; a
parse failure becomes `FetchError(Script.localize(30920))`. -/
def post_json (outcome : RequestOutcome) : Except PyExc JsonValue :=
  match web_request outcome with
  | .error e => .error e
  | .ok resp =>
    match resp.jsonData with
    | some v => .ok v
    | none => .error (.api (.FetchError (script_localize 30920)))

/-- `get_json` (fetch.py lines 242-253): GET; status 204 returns `None`
before any parse attempt; otherwise a parse failure becomes
`FetchError(Script.localize(30920))`. -/
def get_json (outcome : RequestOutcome) : Except PyExc (Option JsonValue) :=
  match web_request outcome with
  | .error e => .error e
  | .ok resp =>
    if resp.status_code = 204 then .ok none
    else
      match resp.jsonData with
      | some v => .ok (some v)
      | none => .error (.api (.FetchError (script_localize 30920)))

/-- `itv_account.SESS_DATA_VERS`: the current session-record schema
version, 2 by the `account_data_v2` test fixture. -/
def SESS_DATA_VERS : Int := 2

/-- The token pair held under `itv_session` in the session record. -/
structure ItvTokens where
  access_token : String
  refresh_token : String
deriving Repr, DecidableEq

/-- A loaded current-schema session record: `refreshed` timestamp, token
pair, cookies, schema version. -/
structure AccountData where
  refreshed : Nat
  itv_session : ItvTokens
  cookies : List (String × String)
  vers : Int
deriving Repr, DecidableEq

/-- The staleness threshold of the token accessors: 12 hours. -/
def token_max_age : Nat := 12 * 3600

/-- What a session-store accessor did: its result, and whether it invoked
`refresh` or `login`. -/
structure PropOutcome (α : Type) where
  result : Except ViwxError α
  refresh_invoked : Bool
  login_invoked : Bool

/-- Modelled from the spec: the `access_token` computed property of
`ItvSession` (itv_account.py is not among the sources; section 4.3).  No
session data fails with an authentication error; data older than the
staleness threshold attempts a refresh, whose failure propagates as an
authentication error and whose success yields the refreshed record's
token; fresh data returns the stored token.  `login` is never invoked by
the accessor. -/
def ItvSession.access_token (data : Option AccountData) (now : Nat)
    (refreshSucceeds : Bool) (refreshedData : AccountData) :
    PropOutcome String :=
  match data with
  | none => ⟨.error (.AuthenticationError none), false, false⟩
  | some d =>
    if d.refreshed + token_max_age < now then
      if refreshSucceeds then
        ⟨.ok refreshedData.itv_session.access_token, true, false⟩
      else ⟨.error (.AuthenticationError none), true, false⟩
    else ⟨.ok d.itv_session.access_token, false, false⟩

/-- Modelled from the spec: the `cookie` computed property of
`ItvSession` (itv_account.py is not among the sources; section 4.3), same
algorithm as `access_token` but yielding the stored cookies. -/
def ItvSession.cookie (data : Option AccountData) (now : Nat)
    (refreshSucceeds : Bool) (refreshedData : AccountData) :
    PropOutcome (List (String × String)) :=
  match data with
  | none => ⟨.error (.AuthenticationError none), false, false⟩
  | some d =>
    if d.refreshed + token_max_age < now then
      if refreshSucceeds then ⟨.ok refreshedData.cookies, true, false⟩
      else ⟨.error (.AuthenticationError none), true, false⟩
    else ⟨.ok d.cookies, false, false⟩

/-- What a `refresh()` call did: its return value, the resulting session
data, whether it persisted, and whether it contacted the token
endpoint. -/
structure RefreshOutcome where
  returned : Bool
  data : Option AccountData
  persisted : Bool
  requested : Bool
deriving Repr, DecidableEq

/-- Modelled from the spec: `ItvSession.refresh` (itv_account.py is not
among the sources; section 4.3).  Without session data it does nothing
and returns false; any error from the token endpoint is caught and it
returns false without persisting; on success it stores the new tokens
with a fresh timestamp, persists, and returns true.  It never raises. -/
def ItvSession.refresh (data : Option AccountData) (now : Nat)
    (endpoint : Except ViwxError ItvTokens) : RefreshOutcome :=
  match data with
  | none => ⟨false, none, false, false⟩
  | some d =>
    match endpoint with
    | .error _ => ⟨false, some d, false, true⟩
    | .ok tokens =>
      ⟨true, some { d with itv_session := tokens, refreshed := now },
       true, true⟩

/-- The `Itv.Session` cookie value the v0→v2 conversion synthesizes,
per the `account_data_v2` test fixture: a JSON-encoded string embedding
the token pair. -/
def session_cookie_string (tokens : JsonValue) : String :=
  let a := match tokens with
    | .obj kvs =>
      match jsonGet kvs "access_token" with
      | some (.str s) => s
      | _ => ""
    | _ => ""
  let r := match tokens with
    | .obj kvs =>
      match jsonGet kvs "refresh_token" with
      | some (.str s) => s
      | _ => ""
    | _ => ""
  "\x7b\"sticky\": true, \"tokens\": \x7b\"content\": \x7b\"access_token\": \""
    ++ a ++ "\", \"refresh_token\": \"" ++ r ++ "\"\x7d\x7d\x7d"

/-- Modelled from the spec: the legacy v0 → current conversion performed
while reading the session record (itv_account.py is not among the
sources; shape fixed by the spec's migration paragraph and the
`account_data_v0`/`account_data_v2` test fixtures).  The credentials
`uname`/`passw` are dropped, `refreshed` and `itv_session` are carried
over, the `Itv.Session` cookie is synthesized from the tokens, and `vers`
becomes the current version. -/
def convert_account_data (rec : List (String × JsonValue)) :
    List (String × JsonValue) :=
  (match jsonGet rec "refreshed" with
   | some r => [("refreshed", r)]
   | none => []) ++
  (match jsonGet rec "itv_session" with
   | some t =>
     [("itv_session", t),
      ("cookies", .obj [("Itv.Session", .str (session_cookie_string t))])]
   | none => [("cookies", .obj [])]) ++
  [("vers", .num SESS_DATA_VERS)]

/-- Modelled from the spec: `read_account_data` followed by
`save_account_data` (itv_account.py is not among the sources).  Reading
upgrades any record whose `vers` is not the current version; saving
writes the in-memory record back verbatim. -/
def load_then_save (rec : List (String × JsonValue)) :
    List (String × JsonValue) :=
  match jsonGet rec "vers" with
  | some (.num v) => if v = SESS_DATA_VERS then rec else convert_account_data rec
  | _ => convert_account_data rec

/-- Is this one of the taxonomy's authentication errors? -/
def ViwxError.isAuthError : ViwxError → Bool
  | .AuthenticationError _ => true
  | _ => false

/-- The session collaborators `fetch_authenticated` consults when the
first request fails authentication: the result of `refresh()`, the
user's answer to the login prompt, and the outcome of `login()`. -/
structure SessionOps where
  refreshResult : Bool
  userAcceptsLogin : Bool
  loginResult : Except ViwxError Bool

/-- Modelled from the spec: `fetch_authenticated` (itv_account.py is not
among the sources; section 4.4).  `req n` is the outcome of the
`(n+1)`-st invocation of the request function; the pair returned is the
overall outcome and the number of invocations.  A first-call
authentication error triggers `refresh()`; after a successful refresh the
call is retried exactly once, and a second authentication error is
reported as `AccessRestrictedError`.  If the refresh fails, the user is
prompted: declining re-raises the original error; accepting runs
`login()`, whose own error propagates, and a successful login retries
exactly once.  Any non-authentication error propagates immediately. -/
def fetch_authenticated (req : Nat → Except ViwxError JsonValue)
    (ops : SessionOps) : Except ViwxError JsonValue × Nat :=
  match req 0 with
  | .ok v => (.ok v, 1)
  | .error e =>
    if e.isAuthError then
      if ops.refreshResult then
        match req 1 with
        | .ok v => (.ok v, 2)
        | .error e2 =>
          if e2.isAuthError then (.error .AccessRestrictedError, 2)
          else (.error e2, 2)
      else if ops.userAcceptsLogin then
        match ops.loginResult with
        | .error le => (.error le, 1)
        | .ok _ =>
          match req 1 with
          | .ok v => (.ok v, 2)
          | .error e2 => (.error e2, 2)
      else (.error e, 1)
    else (.error e, 1)

/-- The `account_data_v0` test fixture (timestamp made concrete). -/
def account_data_v0 : List (String × JsonValue) :=
  [("uname", .str "my_uname"), ("passw", .str "my_passw"),
   ("refreshed", .num 1700000000),
   ("itv_session", .obj [("access_token", .str "my-token"),
                         ("refresh_token", .str "my-refresh-token")]),
   ("cookies", .obj [("Itv.Cid", .str "xxxxxxxxxxxx")])]

/-- The `account_data_v2` test fixture (timestamp made concrete). -/
def account_data_v2 : List (String × JsonValue) :=
  [("refreshed", .num 1700000000),
   ("itv_session", .obj [("access_token", .str "my-token"),
                         ("refresh_token", .str "my-refresh-token")]),
   ("cookies", .obj [("Itv.Session", .str ("\x7b\"sticky\": true, \"tokens\": \x7b\"content\": \x7b\"access_token\": \"my-token\", \"refresh_token\": \"my-refresh-token\"\x7d\x7d\x7d"))]),
   ("vers", .num 2)]

example : web_request (.response ⟨200, "OK", some (.obj [])⟩) =
    .ok ⟨200, "OK", some (.obj [])⟩ := rfl

example : load_then_save account_data_v0 = account_data_v2 := rfl

/-- C1: when the first request raises an authentication error, `refresh()`
succeeds, and the retried request raises an authentication error again,
`fetch_authenticated` raises `AccessRestrictedError` rather than a second
`AuthenticationError`. -/
theorem fetch_authenticated_second_auth_error_is_access_restricted
    (req : Nat → Except ViwxError JsonValue) (ops : SessionOps)
    (d1 d2 : Option JsonValue)
    (h0 : req 0 = .error (.AuthenticationError d1))
    (hr : ops.refreshResult = true)
    (h1 : req 1 = .error (.AuthenticationError d2)) :
    (fetch_authenticated req ops).1 = .error .AccessRestrictedError := by
  simp [fetch_authenticated, h0, h1, hr, ViwxError.isAuthError]

/-- Witness for C1 at a request function that always fails
authentication and a session whose refresh succeeds. -/
theorem fetch_authenticated_second_auth_error_is_access_restricted_witness :
    (fetch_authenticated (fun _ => .error (.AuthenticationError none))
      ⟨true, false, .ok true⟩).1 = .error .AccessRestrictedError :=
  fetch_authenticated_second_auth_error_is_access_restricted
    (fun _ => .error (.AuthenticationError none)) ⟨true, false, .ok true⟩
    none none rfl rfl rfl

/-- C3: when the first request raises an authentication error and
`refresh()` succeeds, the request function is invoked exactly once more
(two invocations in total), and if that second invocation returns a
result, `fetch_authenticated` returns it. -/
theorem fetch_authenticated_retries_once_after_refresh
    (req : Nat → Except ViwxError JsonValue) (ops : SessionOps)
    (d : Option JsonValue)
    (h0 : req 0 = .error (.AuthenticationError d))
    (hr : ops.refreshResult = true) :
    (fetch_authenticated req ops).2 = 2 ∧
    ∀ v : JsonValue, req 1 = .ok v → (fetch_authenticated req ops).1 = .ok v := by
  constructor
  · simp only [fetch_authenticated, h0, hr, ViwxError.isAuthError, if_true]
    cases h1 : req 1 with
    | ok v => simp [h1]
    | error e2 => simp only [h1]; split <;> rfl
  · intro v h1
    simp [fetch_authenticated, h0, hr, h1, ViwxError.isAuthError]

/-- Witness for C3 at a request function failing authentication once and
then succeeding, with a successful refresh. -/
theorem fetch_authenticated_retries_once_after_refresh_witness :
    (fetch_authenticated
      (fun n => if n = 0 then .error (.AuthenticationError none) else .ok (.num 1))
      ⟨true, false, .ok true⟩).2 = 2 ∧
    (fetch_authenticated
      (fun n => if n = 0 then .error (.AuthenticationError none) else .ok (.num 1))
      ⟨true, false, .ok true⟩).1 = .ok (.num 1) := by
  have h := fetch_authenticated_retries_once_after_refresh
    (fun n => if n = 0 then .error (.AuthenticationError none) else .ok (.num 1))
    ⟨true, false, .ok true⟩ none rfl rfl
  exact ⟨h.1, h.2 (.num 1) rfl⟩

/-- C4: with no session data, both accessors raise `AuthenticationError`
without invoking refresh or login; with stale data (older than the
12-hour threshold) both invoke refresh; with fresh data both return the
stored value without invoking refresh or login. -/
theorem ItvSession_accessors_staleness (now : Nat) (rs : Bool)
    (rd : AccountData) :
    (ItvSession.access_token none now rs rd =
      ⟨.error (.AuthenticationError none), false, false⟩) ∧
    (ItvSession.cookie none now rs rd =
      ⟨.error (.AuthenticationError none), false, false⟩) ∧
    (∀ d : AccountData, d.refreshed + token_max_age < now →
      (ItvSession.access_token (some d) now rs rd).refresh_invoked = true ∧
      (ItvSession.cookie (some d) now rs rd).refresh_invoked = true) ∧
    (∀ d : AccountData, ¬ d.refreshed + token_max_age < now →
      ItvSession.access_token (some d) now rs rd =
        ⟨.ok d.itv_session.access_token, false, false⟩ ∧
      ItvSession.cookie (some d) now rs rd = ⟨.ok d.cookies, false, false⟩) := by
  refine ⟨rfl, rfl, fun d h => ?_, fun d h => ?_⟩
  · cases rs <;>
      simp [ItvSession.access_token, ItvSession.cookie, if_pos h]
  · simp [ItvSession.access_token, ItvSession.cookie, if_neg h]

/-- Witness for C4 at a stale record (refreshed at 0, read at 50000
seconds) and a fresh one (refreshed at 49000). -/
theorem ItvSession_accessors_staleness_witness :
    (ItvSession.access_token (some ⟨0, ⟨"t", "r"⟩, [], 2⟩) 50000 true
      ⟨1, ⟨"t2", "r2"⟩, [], 2⟩).refresh_invoked = true ∧
    ItvSession.access_token (some ⟨49000, ⟨"t", "r"⟩, [], 2⟩) 50000 true
      ⟨1, ⟨"t2", "r2"⟩, [], 2⟩ = ⟨.ok "t", false, false⟩ := by
  have h := ItvSession_accessors_staleness 50000 true ⟨1, ⟨"t2", "r2"⟩, [], 2⟩
  exact ⟨(h.2.2.1 ⟨0, ⟨"t", "r"⟩, [], 2⟩ (by decide)).1,
         (h.2.2.2 ⟨49000, ⟨"t", "r"⟩, [], 2⟩ (by decide)).1⟩

/-- C6: loading a legacy v0 record (plaintext credentials, no schema
version) and re-saving yields a current-schema record with `uname` and
`passw` removed, the `Itv.Session` cookie synthesized from the tokens,
and `refreshed` preserved unchanged. -/
theorem account_record_migration
    (rec : List (String × JsonValue)) (u p : String) (ts tok : JsonValue)
    (_hu : jsonGet rec "uname" = some (.str u))
    (_hp : jsonGet rec "passw" = some (.str p))
    (ht : jsonGet rec "refreshed" = some ts)
    (hs : jsonGet rec "itv_session" = some tok)
    (hv : jsonGet rec "vers" = none) :
    jsonGet (load_then_save rec) "uname" = none ∧
    jsonGet (load_then_save rec) "passw" = none ∧
    jsonGet (load_then_save rec) "refreshed" = some ts ∧
    jsonGet (load_then_save rec) "vers" = some (.num SESS_DATA_VERS) ∧
    jsonGet (load_then_save rec) "cookies" =
      some (.obj [("Itv.Session", .str (session_cookie_string tok))]) := by
  have hls : load_then_save rec = convert_account_data rec := by
    unfold load_then_save; rw [hv]
  have hc : convert_account_data rec =
      [("refreshed", ts), ("itv_session", tok),
       ("cookies", .obj [("Itv.Session", .str (session_cookie_string tok))]),
       ("vers", .num SESS_DATA_VERS)] := by
    unfold convert_account_data; rw [ht, hs]; rfl
  rw [hls, hc]
  exact ⟨rfl, rfl, rfl, rfl, rfl⟩

/-- Witness for C6 at the `account_data_v0` test fixture. -/
theorem account_record_migration_witness :
    jsonGet (load_then_save account_data_v0) "uname" = none ∧
    jsonGet (load_then_save account_data_v0) "passw" = none ∧
    jsonGet (load_then_save account_data_v0) "refreshed" =
      some (.num 1700000000) ∧
    jsonGet (load_then_save account_data_v0) "vers" =
      some (.num SESS_DATA_VERS) ∧
    jsonGet (load_then_save account_data_v0) "cookies" =
      some (.obj [("Itv.Session",
        .str (session_cookie_string (.obj
          [("access_token", .str "my-token"),
           ("refresh_token", .str "my-refresh-token")])))]) :=
  account_record_migration account_data_v0 "my_uname" "my_passw"
    (.num 1700000000)
    (.obj [("access_token", .str "my-token"),
           ("refresh_token", .str "my-refresh-token")])
    rfl rfl rfl rfl rfl

/-- C7: `refresh()` never raises: with no session data it returns false
without contacting the endpoint and without persisting; on any error from
the token endpoint it returns false without persisting; on success it
stores the new tokens, persists, and returns true. -/
theorem ItvSession_refresh_contract :
    (∀ (now : Nat) (ep : Except ViwxError ItvTokens),
      ItvSession.refresh none now ep = ⟨false, none, false, false⟩) ∧
    (∀ (d : AccountData) (now : Nat) (e : ViwxError),
      ItvSession.refresh (some d) now (.error e) =
        ⟨false, some d, false, true⟩) ∧
    (∀ (d : AccountData) (now : Nat) (t : ItvTokens),
      ItvSession.refresh (some d) now (.ok t) =
        ⟨true, some { d with itv_session := t, refreshed := now },
         true, true⟩) :=
  ⟨fun _ _ => rfl, fun _ _ _ => rfl, fun _ _ _ => rfl⟩

/-- C8: a 204 GET yields the no-data result without attempting a parse
(even an unparseable body gives `None`); any other successful-status
response whose body fails to parse makes `get_json` or `post_json` raise
the fetch-layer error. -/
theorem json_helpers_body_handling :
    (∀ (reason : String) (jd : Option JsonValue),
      get_json (.response ⟨204, reason, jd⟩) = .ok none) ∧
    (∀ (s : Nat) (reason : String), ¬(400 ≤ s ∧ s < 600) → ¬ s = 204 →
      get_json (.response ⟨s, reason, none⟩) =
        .error (.api (.FetchError (script_localize 30920)))) ∧
    (∀ (s : Nat) (reason : String), ¬(400 ≤ s ∧ s < 600) →
      post_json (.response ⟨s, reason, none⟩) =
        .error (.api (.FetchError (script_localize 30920)))) := by
  refine ⟨fun reason jd => ?_, fun s reason h h204 => ?_, fun s reason h => ?_⟩
  · simp [get_json, web_request]
  · simp [get_json, web_request, if_neg h, if_neg h204]
  · simp [post_json, web_request, if_neg h]

/-- Witness for C8 at status 200 with an unparseable body. -/
theorem json_helpers_body_handling_witness :
    get_json (.response ⟨200, "OK", none⟩) =
      .error (.api (.FetchError (script_localize 30920))) ∧
    post_json (.response ⟨200, "OK", none⟩) =
      .error (.api (.FetchError (script_localize 30920))) :=
  ⟨json_helpers_body_handling.2.1 200 "OK" (by decide) (by decide),
   json_helpers_body_handling.2.2 200 "OK" (by decide)⟩

/-- C9: every failure of the consent bootstrap is swallowed and the
caller receives back exactly the jar that was passed in; no exception
escapes (the embedding is total). -/
theorem set_default_cookies_failure_returns_jar :
    (∀ (msg uuid : String) (now : Nat) (cj : Option PersistentCookieJar),
      set_default_cookies (.getFails msg) uuid now cj = cj) ∧
    (∀ (st : Nat) (uuid : String) (now : Nat)
      (cj : Option PersistentCookieJar),
      set_default_cookies (.badStatus st) uuid now cj = cj) ∧
    (∀ (uuid : String) (now : Nat) (cj : Option PersistentCookieJar),
      set_default_cookies .notJson uuid now cj = cj) ∧
    (∀ (uuid : String) (now : Nat) (cj : Option PersistentCookieJar),
      set_default_cookies .badConsentPayload uuid now cj = cj) :=
  ⟨fun _ _ _ _ => rfl, fun _ _ _ _ => rfl, fun _ _ _ => rfl,
   fun _ _ _ => rfl⟩

example : web_request (.response ⟨401, "Unauthorized", none⟩) =
    .error (.api (.AuthenticationError none)) := rfl

example : web_request (.response ⟨403, "Forbidden",
      some (.obj [("Message", .str "msg: User does not have entitlements")])⟩) =
    .error (.api .AccessRestrictedError) := rfl

example : web_request (.response ⟨403, "Forbidden", some (.arr [])⟩) =
    .error .attributeError := rfl

/-- Helper for C2: on an object body the claim-side row-1 test agrees
with the source's `error`-field test. -/
theorem spec_error_matches_obj (s : Nat) (reason : String)
    (kvs : List (String × JsonValue)) :
    spec_error_matches ⟨s, reason, some (.obj kvs)⟩ =
      py_error_field_matches kvs := by
  simp only [spec_error_matches]
  unfold py_error_field_matches
  cases h : jsonGet kvs "error" with
  | none => simp [h]
  | some v => cases v <;> simp [h, JsonValue.eqString]

/-- Helper for C2: a safe object body makes both Python containment tests
run without a `TypeError`. -/
theorem body_safe_pyIn (s : Nat) (reason : String)
    (kvs : List (String × JsonValue))
    (hb : body_safe ⟨s, reason, some (.obj kvs)⟩ = true) (needle : String) :
    ∃ b, pyInStr needle (py_message kvs) = .ok b := by
  unfold py_message
  cases hm : jsonGet kvs "Message" with
  | none => exact ⟨_, rfl⟩
  | some v =>
    cases v with
    | null => simp [body_safe, hm] at hb
    | bool b => simp [body_safe, hm] at hb
    | num n => simp [body_safe, hm] at hb
    | str t => exact ⟨_, rfl⟩
    | arr xs => exact ⟨_, rfl⟩
    | obj l => exact ⟨_, rfl⟩

/-- Helper for C2: under the amended hypotheses the handler agrees with
the spec's classification table. -/
theorem classify_agrees_with_spec (resp : HttpResponse)
    (h4 : 400 ≤ resp.status_code)
    (hsafe : resp.status_code < 500 → body_safe resp = true) :
    classify_http_error resp = .api (errorClassifierSpec resp) := by
  obtain ⟨s, reason, jd⟩ := resp
  by_cases h5 : s < 500
  · have h45 : (400:Nat) ≤ s ∧ s < 500 := ⟨h4, h5⟩
    have hb := hsafe h5
    cases jd with
    | none =>
      by_cases h401 : s = 401 <;>
        simp [classify_http_error, errorClassifierSpec, classify_tail,
              spec_error_matches, spec_message_contains, h45, h401]
    | some v =>
      cases v with
      | obj kvs =>
        have hpm := body_safe_pyIn s reason kvs hb
        by_cases hE : py_error_field_matches kvs = true
        · simp [classify_http_error, errorClassifierSpec,
                spec_error_matches_obj, spec_error_description, hE, h45]
        · obtain ⟨b1, h1⟩ := hpm "User does not have entitlements"
          obtain ⟨b2, h2⟩ := hpm "Outside Of Allowed Geographic Region"
          cases b1 with
          | true =>
            simp [classify_http_error, errorClassifierSpec,
                  spec_error_matches_obj, spec_message_contains, hE, h45, h1]
          | false =>
            cases b2 with
            | true =>
              simp [classify_http_error, errorClassifierSpec,
                    spec_error_matches_obj, spec_message_contains,
                    hE, h45, h1, h2]
            | false =>
              by_cases h401 : s = 401 <;>
                simp [classify_http_error, errorClassifierSpec, classify_tail,
                      spec_error_matches_obj, spec_message_contains,
                      hE, h45, h1, h2, h401]
      | null => simp [body_safe] at hb
      | bool b => simp [body_safe] at hb
      | num n => simp [body_safe] at hb
      | str t => simp [body_safe] at hb
      | arr xs => simp [body_safe] at hb
  · have h45 : ¬((400:Nat) ≤ s ∧ s < 500) := fun hh => h5 hh.2
    have h401 : ¬(s = 401) := by omega
    simp [classify_http_error, errorClassifierSpec, classify_tail,
          h45, h401]

/-- C2 (amended): for every HTTP response whose status is in `[400, 600)`
and whose body, if it parses at all, parses to a JSON object whose
`Message` field (when present) is a container, `web_request` raises
exactly the error kind of the spec's classification table; and every
transport-level failure raises `FetchError` with its description. -/
theorem web_request_error_classification :
    (∀ resp : HttpResponse, 400 ≤ resp.status_code →
      resp.status_code < 600 →
      (resp.status_code < 500 → body_safe resp = true) →
      web_request (.response resp) =
        .error (.api (errorClassifierSpec resp))) ∧
    (∀ msg : String, web_request (.requestException msg) =
      .error (.api (.FetchError msg))) := by
  refine ⟨fun resp h4 h6 hsafe => ?_, fun msg => rfl⟩
  have hcl := classify_agrees_with_spec resp h4 hsafe
  simp [web_request, if_pos (And.intro h4 h6), hcl]

/-- Counterexample to C2 as stated: a 403 response whose body parses to a
JSON array makes the handler's `resp_data.get('error')` raise a Python
`AttributeError`, not the table's `HttpError(403)`; and a response with
status 600 is at or above 400 yet `raise_for_status` does not fire, so
`web_request` returns it instead of raising anything. -/
theorem web_request_classification_counterexample :
    web_request (.response ⟨403, "Forbidden", some (.arr [])⟩) =
      .error .attributeError ∧
    PyExc.attributeError ≠ PyExc.api (.HttpError 403 "Forbidden") ∧
    web_request (.response ⟨600, "Unknown", none⟩) =
      .ok ⟨600, "Unknown", none⟩ :=
  ⟨rfl, fun h => PyExc.noConfusion h, rfl⟩

/-- Witness for C2 (amended) at a 403 entitlements response: the
classification yields `AccessRestrictedError`. -/
theorem web_request_error_classification_witness :
    web_request (.response ⟨403, "Forbidden",
        some (.obj [("Message", .str "User does not have entitlements")])⟩) =
      .error (.api (errorClassifierSpec ⟨403, "Forbidden",
        some (.obj [("Message", .str "User does not have entitlements")])⟩)) ∧
    errorClassifierSpec ⟨403, "Forbidden",
        some (.obj [("Message", .str "User does not have entitlements")])⟩ =
      .AccessRestrictedError :=
  ⟨web_request_error_classification.1
      ⟨403, "Forbidden",
        some (.obj [("Message", .str "User does not have entitlements")])⟩
      (by decide) (by decide) (fun _ => rfl),
   rfl⟩

/-- Helper for C10: with a valid argument combination the base-class
`clear` never raises `ValueError`. -/
theorem storeClear_no_valueError (st : CookieStore)
    (domain path name : Option String)
    (hv : valid_clear_args domain path name = true)
    (h : storeClear st domain path name = .error .valueError) : False := by
  cases name with
  | some n =>
    cases domain with
    | none => simp [valid_clear_args] at hv
    | some d =>
      cases path with
      | none => simp [valid_clear_args] at hv
      | some p =>
        simp only [storeClear] at h
        cases hg : alistGet st d with
        | none => simp only [hg] at h; simp at h
        | some dm =>
          simp only [hg] at h
          cases hgp : alistGet dm p with
          | none => simp only [hgp] at h; simp at h
          | some pm =>
            simp only [hgp] at h
            cases hd : alistDel pm n with
            | none => simp only [hd] at h; simp at h
            | some pm2 => simp only [hd] at h; simp at h
  | none =>
    cases path with
    | some p =>
      cases domain with
      | none => simp [valid_clear_args] at hv
      | some d =>
        simp only [storeClear] at h
        cases hg : alistGet st d with
        | none => simp only [hg] at h; simp at h
        | some dm =>
          simp only [hg] at h
          cases hd : alistDel dm p with
          | none => simp only [hd] at h; simp at h
          | some dm2 => simp only [hd] at h; simp at h
    | none =>
      cases domain with
      | some d =>
        simp only [storeClear] at h
        cases hd : alistDel st d with
        | none => simp only [hd] at h; simp at h
        | some st2 => simp only [hd] at h; simp at h
      | none => simp [storeClear] at h

/-- C10 (amended): for every jar and every valid argument combination
(a name only together with domain and path, a path only together with a
domain), `clear()` never raises; when the underlying deletion finds no
entry the `KeyError` is swallowed and the jar — dirty flag included — is
left unchanged; when the deletion succeeds the matching entries are
removed and the jar is marked changed. -/
theorem PersistentCookieJar_clear_total (j : PersistentCookieJar)
    (domain path name : Option String)
    (hv : valid_clear_args domain path name = true) :
    (∃ j2, j.clear domain path name = .ok j2) ∧
    (∀ e, storeClear j._cookies domain path name = .error e →
      e = .keyError ∧ j.clear domain path name = .ok j) ∧
    (∀ st, storeClear j._cookies domain path name = .ok st →
      j.clear domain path name =
        .ok { j with _cookies := st, _has_changed := true }) := by
  cases hsc : storeClear j._cookies domain path name with
  | ok st =>
    refine ⟨⟨{ j with _cookies := st, _has_changed := true }, ?_⟩,
            fun e he => ?_, fun st2 h2 => ?_⟩
    · unfold PersistentCookieJar.clear; rw [hsc]
    · exact Except.noConfusion he
    · injection h2 with h2
      subst h2
      unfold PersistentCookieJar.clear; rw [hsc]
  | error e =>
    cases e with
    | valueError =>
      exact (storeClear_no_valueError j._cookies domain path name hv hsc).elim
    | keyError =>
      refine ⟨⟨j, ?_⟩, fun e2 he => ?_, fun st2 h2 => ?_⟩
      · unfold PersistentCookieJar.clear; rw [hsc]
      · injection he with he
        exact ⟨he.symm, by unfold PersistentCookieJar.clear; rw [hsc]⟩
      · exact Except.noConfusion h2

/-- Counterexample to C10 as stated: `clear` called with only a name (the
base class demands domain and path with it) propagates the base class's
`ValueError` — it is not the case that `clear()` never raises for every
`(domain, path, name)` argument. -/
theorem PersistentCookieJar_clear_counterexample :
    PersistentCookieJar.clear ⟨"cookies", [], false⟩ none none (some "Itv.Cid")
      = .error .valueError := rfl

/-- Witness for C10 (amended) at a one-cookie jar: clearing the present
cookie succeeds and marks the jar changed; clearing a missing cookie is
swallowed. -/
theorem PersistentCookieJar_clear_total_witness :
    (∃ j2, PersistentCookieJar.clear
      ⟨"f", [("d", [("/", [("n", ⟨"n", "v", "d", "/", none, false⟩)])])], false⟩
      (some "d") (some "/") (some "n") = .ok j2) ∧
    (∃ j2, PersistentCookieJar.clear ⟨"f", [], false⟩
      (some "d") (some "/") (some "n") = .ok j2) :=
  ⟨(PersistentCookieJar_clear_total
      ⟨"f", [("d", [("/", [("n", ⟨"n", "v", "d", "/", none, false⟩)])])], false⟩
      (some "d") (some "/") (some "n") (by decide)).1,
   (PersistentCookieJar_clear_total ⟨"f", [], false⟩
      (some "d") (some "/") (some "n") (by decide)).1⟩

/-- Helper for C5: `save` writes the file exactly when the dirty flag is
set. -/
theorem save_writes_iff_flag (j : PersistentCookieJar) (now : Nat) :
    (j.save now).2 = j._has_changed := by
  unfold PersistentCookieJar.save
  cases h : j._has_changed <;> simp [h]

/-- Helper for C5: after a `save` the dirty flag is always clear. -/
theorem save_resets_flag (j : PersistentCookieJar) (now : Nat) :
    ((j.save now).1)._has_changed = false := by
  unfold PersistentCookieJar.save
  cases h : j._has_changed <;> simp [h]

/-- Helper for C5: how one operation transforms the dirty flag — a `save`
clears it, anything else ORs in whether the operation counts as a
change. -/
theorem jarStep_flag (j : PersistentCookieJar) (op : JarOp) :
    ((jarStep j op).1)._has_changed =
      (match op with
       | .saveOp _ => false
       | _ => j._has_changed || countsAsChange j op) := by
  cases op with
  | setCookie c => simp [jarStep, PersistentCookieJar.set_cookie, countsAsChange]
  | clearOp d p n =>
    simp only [jarStep, countsAsChange]
    cases hsc : storeClear j._cookies d p n with
    | ok st => simp [PersistentCookieJar.clear, hsc]
    | error e => cases e <;> simp [PersistentCookieJar.clear, hsc]
  | saveOp now => exact save_resets_flag j now

/-- Helper for C5: along any trace the dirty flag computes exactly the
claim-side "changed since the last save" bookkeeping. -/
theorem jarRun_flag (ops : List JarOp) : ∀ j : PersistentCookieJar,
    ((jarRun j ops).1)._has_changed =
      changedSinceSave j j._has_changed ops := by
  induction ops with
  | nil => intro j; rfl
  | cons op rest ih =>
    intro j
    simp only [jarRun, changedSinceSave]
    rw [ih (jarStep j op).1, jarStep_flag j op]

/-- C5: starting from a clean jar, a `save` after any trace of cookie
operations writes the file if and only if a change (where setting the
`hdntl` cookie does not count) occurred since the most recent save; two
consecutive saves write at most once; and `HttpSession.request` invokes
`save` after every completed request, so a run of n requests writes the
file at most n times. -/
theorem cookiejar_save_writes_iff_changed :
    (∀ (j : PersistentCookieJar) (ops : List JarOp) (now : Nat),
      j._has_changed = false →
      (((jarRun j ops).1).save now).2 = changedSinceSave j false ops) ∧
    (∀ (j : PersistentCookieJar) (now now2 : Nat),
      (((j.save now).1).save now2).2 = false) ∧
    (∀ (j : PersistentCookieJar) (resp : HttpResponse)
      (rc : List Cookie) (now : Nat),
      (HttpSession.request j (.response resp) rc now).2.1 = true) ∧
    (∀ (j : PersistentCookieJar)
      (reqs : List (RequestOutcome × List Cookie × Nat)),
      (sessionRun j reqs).2 ≤ reqs.length) := by
  refine ⟨fun j ops now h => ?_, fun j now now2 => ?_,
          fun j resp rc now => rfl, fun j reqs => ?_⟩
  · rw [save_writes_iff_flag, jarRun_flag, h]
  · rw [save_writes_iff_flag, save_resets_flag]
  · induction reqs generalizing j with
    | nil => exact Nat.zero_le 0
    | cons r rest ih =>
      obtain ⟨o, rc, now⟩ := r
      simp only [sessionRun, List.length]
      have hr := ih (HttpSession.request j o rc now).1
      split <;> omega

/-- Witness for C5 at a fresh jar and a one-`set_cookie` trace: the
closing save writes, exactly as the bookkeeping predicts. -/
theorem cookiejar_save_writes_iff_changed_witness :
    (((jarRun (PersistentCookieJar.mk_new "f")
        [JarOp.setCookie ⟨"a", "v", "d", "/", none, false⟩]).1).save 0).2 =
      changedSinceSave (PersistentCookieJar.mk_new "f") false
        [JarOp.setCookie ⟨"a", "v", "d", "/", none, false⟩] :=
  cookiejar_save_writes_iff_changed.1 (PersistentCookieJar.mk_new "f")
    [JarOp.setCookie ⟨"a", "v", "d", "/", none, false⟩] 0 rfl
